import Mathlib

set_option maxRecDepth 8192

/-!
Shallow embedding of the kpub character-device pub/sub channel (kpub.c,
circular-buffer version with broadcast gate).  The `struct topic` fields
`msg_size`, `msg_count`, `nreaders`, `nwriters`, `wp`, `rp`, `len`,
`rcount` are 32-bit unsigned integers in the source; they are modelled as
`Nat` with arithmetic reduced `% 2^32` exactly where the C code can wrap
(`--topic->rcount`, `topic->len -= len`, `topic->rp += len`, ...).  The
byte buffer `char *buf` is a `List Nat` (empty list = not yet allocated,
matching the NULL test `if (!topic->buf)`; a successful allocation always
has positive length since open requires `msg_size, msg_count > 0`).
Errors are returned kernel-style; every operation returns the post-call
topic state paired with the result, since some error paths in the source
do mutate the topic before returning.
-/

namespace Kpub

/-- Width of the 32-bit unsigned fields of `struct topic`. -/
def U32 : Nat := 2 ^ 32

/-- MAX_MSG_SIZE is PAGE_SIZE (4096 bytes on the targeted architecture). -/
def MAX_MSG_SIZE : Nat := 4096

/-- MAX_MSG_COUNT from the source. -/
def MAX_MSG_COUNT : Nat := 64

/-- Error returns used by the modelled operations.  `EBUSY` never occurs in
the source; it is included so that statements about the spec's `Busy`
error class can be expressed. -/
inductive Err where
  | EINVAL
  | EAGAIN
  | ERESTARTSYS
  | ENOMEM
  | EACCES
  | EBUSY
  deriving DecidableEq, Repr

instance {ε α : Type} [DecidableEq ε] [DecidableEq α] : DecidableEq (Except ε α) :=
  fun a b =>
    match a, b with
    | .ok a, .ok b =>
        if h : a = b then isTrue (congrArg Except.ok h)
        else isFalse (fun hc => h (Except.ok.inj hc))
    | .error a, .error b =>
        if h : a = b then isTrue (congrArg Except.error h)
        else isFalse (fun hc => h (Except.error.inj hc))
    | .ok _, .error _ => isFalse (fun hc => Except.noConfusion hc)
    | .error _, .ok _ => isFalse (fun hc => Except.noConfusion hc)

/-- The channel-relevant fields of `struct topic`. -/
structure Topic where
  msg_size : Nat
  msg_count : Nat
  nreaders : Nat
  nwriters : Nat
  wp : Nat
  rp : Nat
  len : Nat
  rcount : Nat
  buf : List Nat
  deriving DecidableEq, Repr

/-- Derived buffer capacity, the local `size_t size = topic->msg_size *
topic->msg_count` computed by read, write and poll. -/
def capacity (t : Topic) : Nat := t.msg_size * t.msg_count

/-- State of a freshly created topic: `create_topic_store` obtains the
struct from `kzalloc`, so every field starts at zero and `buf` is NULL. -/
def initTopic : Topic :=
  { msg_size := 0, msg_count := 0, nreaders := 0, nwriters := 0,
    wp := 0, rp := 0, len := 0, rcount := 0, buf := [] }

/-- Overwrite `buf` at byte offset `pos` with `data` (the effect of
`copy_from_user(&topic->buf[topic->wp], buf, len)`). -/
def writeBytes (buf : List Nat) (pos : Nat) (data : List Nat) : List Nat :=
  buf.take pos ++ data ++ buf.drop (pos + data.length)

/-- Model of `msg_size_store`: reject sysfs writes longer than
`sizeof(topic->msg_size)`; reject when any file descriptor is open;
otherwise store the 32-bit value, and if it exceeds `MAX_MSG_SIZE` reset
it to zero and report `EINVAL`.  The source assigns `topic->msg_size`
first and then tests the stored field; the branches below state the
resulting post-states directly.  The second component echoes the sysfs
length on success, mirroring `return len`. -/
def msg_size_store (t : Topic) (v : Nat) (l : Nat) : Topic × Except Err Nat :=
  if 4 < l then (t, .error .EINVAL)
  else if t.nreaders ≠ 0 ∨ t.nwriters ≠ 0 then (t, .error .EINVAL)
  else if MAX_MSG_SIZE < v % U32 then ({ t with msg_size := 0 }, .error .EINVAL)
  else ({ t with msg_size := v % U32 }, .ok l)

/-- Model of `msg_count_store`, symmetric to `msg_size_store` with bound
`MAX_MSG_COUNT`. -/
def msg_count_store (t : Topic) (v : Nat) (l : Nat) : Topic × Except Err Nat :=
  if 4 < l then (t, .error .EINVAL)
  else if t.nreaders ≠ 0 ∨ t.nwriters ≠ 0 then (t, .error .EINVAL)
  else if MAX_MSG_COUNT < v % U32 then ({ t with msg_count := 0 }, .error .EINVAL)
  else ({ t with msg_count := v % U32 }, .ok l)

/-- Lazy buffer allocation performed by `kpub_open`: `if (!topic->buf)
topic->buf = kzalloc(topic->msg_size * topic->msg_count, GFP_KERNEL)`
(zero-initialised, allocation assumed to succeed). -/
def allocBuf (t : Topic) : Topic :=
  if t.buf.isEmpty then { t with buf := List.replicate (capacity t) 0 } else t

/-- Model of `kpub_open`.  `fRead`/`fWrite` are the FMODE_READ/FMODE_WRITE
bits.  Returns the new topic state and, on success, the initial
`file->f_pos` handed to the new handle.  Note the source's order: the
configuration check comes first, the lazy buffer allocation (which
persists even if the subsequent mode check fails with `EACCES`) second;
`file->f_pos = topic->wp; topic->rp = topic->wp; topic->len = 0;` run only
on a successful reader-xor-writer open. -/
def kpub_open (t : Topic) (fRead fWrite : Bool) : Topic × Except Err Nat :=
  if t.msg_size = 0 ∨ t.msg_count = 0 then (t, .error .ENOMEM)
  else if fRead && !fWrite then
    ({ allocBuf t with nreaders := ((allocBuf t).nreaders + 1) % U32,
                       rp := (allocBuf t).wp, len := 0 }, .ok (allocBuf t).wp)
  else if fWrite && !fRead then
    ({ allocBuf t with nwriters := ((allocBuf t).nwriters + 1) % U32,
                       rp := (allocBuf t).wp, len := 0 }, .ok (allocBuf t).wp)
  else (allocBuf t, .error .EACCES)

/-- Model of `kpub_release`: decrement the matching handle count
(unsigned 32-bit decrement). -/
def kpub_release (t : Topic) (fRead fWrite : Bool) : Topic × Except Err Unit :=
  if fRead && !fWrite then
    ({ t with nreaders := (t.nreaders + U32 - 1) % U32 }, .ok ())
  else if fWrite && !fRead then
    ({ t with nwriters := (t.nwriters + U32 - 1) % U32 }, .ok ())
  else (t, .error .EACCES)

/-- Byte count accepted by a read: `min(len, wp - *off)` when
`topic->wp > *off`, else `min(len, size - *off)` (read up to the physical
end of the buffer before wrapping). -/
def readLen (t : Topic) (off : Nat) (req : Nat) : Nat :=
  if t.wp > off then min req (t.wp - off) else min req (capacity t - off)

/-- Model of `kpub_read` for a handle whose `*off` is `off`, requesting at
most `req` bytes.  The `*off == topic->wp` guard is the empty test; with
O_NONBLOCK it returns `EAGAIN` (a blocking caller sleeps until the guard
clears, leaving the topic unchanged, so the successful case below also
describes what a woken blocking reader does).  On success the result
carries the advanced `*off` and the bytes copied to user space. -/
def kpub_read (t : Topic) (off : Nat) (req : Nat) :
    Topic × Except Err (Nat × List Nat) :=
  if off = t.wp then (t, .error .EAGAIN)
  else if (t.rcount + U32 - 1) % U32 = 0 then
    ({ t with rcount := (t.rcount + U32 - 1) % U32,
              rp := if (t.rp + readLen t off req) % U32 = capacity t then 0
                    else (t.rp + readLen t off req) % U32,
              len := (t.len + U32 - readLen t off req) % U32 },
     .ok (if off + readLen t off req = capacity t then 0 else off + readLen t off req,
          (t.buf.drop off).take (readLen t off req)))
  else
    ({ t with rcount := (t.rcount + U32 - 1) % U32 },
     .ok (if off + readLen t off req = capacity t then 0 else off + readLen t off req,
          (t.buf.drop off).take (readLen t off req)))

/-- Byte count accepted by a write: `min(len, size - wp)` when
`topic->wp >= *off`, else `min(len, *off - wp)`.  Note `*off` here is the
writer handle's file position, assigned at open and never advanced by the
write path. -/
def writeLen (t : Topic) (off : Nat) (n : Nat) : Nat :=
  if off ≤ t.wp then min n (capacity t - t.wp) else min n (off - t.wp)

/-- Model of `kpub_write` for a handle whose `*off` is `off` (note the
source never advances a writer's `*off`; it keeps the value assigned at
open).  Checks in source order: length a multiple of `msg_size`, length
at most the capacity, buffer-full guard (`EAGAIN` when O_NONBLOCK), then
the clamp `writeLen`.  Returns the accepted bytes (the source returns
their count). -/
def kpub_write (t : Topic) (off : Nat) (data : List Nat) :
    Topic × Except Err (List Nat) :=
  if data.length % t.msg_size ≠ 0 then (t, .error .EINVAL)
  else if capacity t < data.length then (t, .error .EINVAL)
  else if t.len = capacity t then (t, .error .EAGAIN)
  else
    ({ t with buf := writeBytes t.buf t.wp (data.take (writeLen t off data.length)),
              wp := if (t.wp + writeLen t off data.length) % U32 = capacity t then 0
                    else (t.wp + writeLen t off data.length) % U32,
              len := (t.len + writeLen t off data.length) % U32,
              rcount := t.nreaders },
     .ok (data.take (writeLen t off data.length)))

/-- Model of `kpub_poll`: POLLIN is reported iff `topic->len > 0`, POLLOUT
iff `topic->len == size`.  The first component is the readable bit, the
second the writable bit. -/
def kpub_poll (t : Topic) : Bool × Bool :=
  (decide (0 < t.len), decide (t.len = capacity t))

/-- A driver-level system state for exercising traces through one writer
handle and one reader handle: the topic plus each handle's `f_pos` and
the accumulated streams of accepted and returned bytes. -/
structure Sys where
  topic : Topic
  offW : Nat
  offR : Nat
  written : List Nat
  readOut : List Nat
  deriving DecidableEq, Repr

/-- Operations available on a `Sys` trace. -/
inductive Op where
  | setSize (v : Nat)
  | setCount (v : Nat)
  | openWriter
  | openReader
  | write (data : List Nat)
  | read (req : Nat)
  deriving DecidableEq, Repr

/-- Apply one operation: each constructor calls the corresponding modelled
file operation; a failed call keeps whatever topic state the operation
left behind and does not touch the byte streams. -/
def stepOp (s : Sys) (op : Op) : Sys :=
  match op with
  | .setSize v => { s with topic := (msg_size_store s.topic v 4).1 }
  | .setCount v => { s with topic := (msg_count_store s.topic v 4).1 }
  | .openWriter =>
      let r := kpub_open s.topic false true
      match r.2 with
      | .ok off => { s with topic := r.1, offW := off }
      | .error _ => { s with topic := r.1 }
  | .openReader =>
      let r := kpub_open s.topic true false
      match r.2 with
      | .ok off => { s with topic := r.1, offR := off }
      | .error _ => { s with topic := r.1 }
  | .write data =>
      let r := kpub_write s.topic s.offW data
      match r.2 with
      | .ok acc => { s with topic := r.1, written := s.written ++ acc }
      | .error _ => { s with topic := r.1 }
  | .read req =>
      let r := kpub_read s.topic s.offR req
      match r.2 with
      | .ok res => { s with topic := r.1, offR := res.1, readOut := s.readOut ++ res.2 }
      | .error _ => { s with topic := r.1 }

/-- Run a list of operations from a state. -/
def runOps (s : Sys) (ops : List Op) : Sys := ops.foldl stepOp s

/-- Fresh system: newly created topic, no handles yet. -/
def initSys : Sys :=
  { topic := initTopic, offW := 0, offR := 0, written := [], readOut := [] }

/-- Configure slot size 1 and slot count 16 (capacity 16 bytes), then open
one writer handle and one reader handle. -/
def cfgOps : List Op :=
  [.setSize 1, .setCount 16, .openWriter, .openReader]

/-- First message of the corruption trace: fourteen distinguishable bytes. -/
def msgA : List Nat := [1, 2, 3, 4, 5, 6, 7, 8, 9, 10, 11, 12, 13, 14]

/-- Second message of the corruption trace: the two bytes that complete the
physical buffer and wrap `wp` to zero. -/
def msgB : List Nat := [101, 102]

/-- Third message of the corruption trace: fourteen bytes whose values are
disjoint from `msgA`. -/
def msgC : List Nat := [201, 202, 203, 204, 205, 206, 207, 208, 209, 210, 211, 212, 213, 214]

/-- Trace reaching the state just before the overflowing write: write 14
bytes, read 12 of them, write 2 more (wrapping `wp` to 0) — leaving
`wp = 0`, `rp = 12`, `pending_len = 4`, with the unread bytes 13, 14 still
at offsets 12 and 13. -/
def traceBeforeOverfill : List Op :=
  cfgOps ++ [.write msgA, .read 12, .write msgB]

/-- Trace extending `traceBeforeOverfill` with a 14-byte write that the
clamp (computed against the writer's stale `*off = 0`, not against `rp`)
accepts in full, overwriting the two unread bytes and driving
`pending_len` to 18 on a 16-byte buffer. -/
def traceOverfill : List Op :=
  traceBeforeOverfill ++ [.write msgC]

/-- Trace extending `traceOverfill` with a read that drains everything the
reader can still see: the reader receives bytes of the third write where
the unread tail of the first write used to be. -/
def traceCorrupt : List Op :=
  traceOverfill ++ [.read 16]

/-- Messages for the tail-pointer trace. -/
def msgX : List Nat := [1, 2, 3, 4, 5, 6, 7, 8]

/-- Second message of the tail-pointer trace. -/
def msgY : List Nat := [9, 10, 11, 12, 13, 14, 15, 16]

/-- Third message of the tail-pointer trace, fourteen bytes long. -/
def msgZ : List Nat := [17, 18, 19, 20, 21, 22, 23, 24, 25, 26, 27, 28, 29, 30]

/-- Trace reaching a state with `rp = 10`, `wp = 14`, `offR = 0`,
`rcount = 1`: a gate-counting sequence (two short reads under one write,
wrapping the gate) followed by writes and reads that leave the shared
tail ten bytes in while fourteen bytes are readable. -/
def traceTailSkew : List Op :=
  cfgOps ++ [.write msgX, .read 2, .read 6, .write msgY, .read 8, .write msgZ]

/-- Trace that fills the whole 16-byte buffer in one write, wrapping `wp`
back to the reader's cursor while `pending_len = capacity`. -/
def traceFullWrap : List Op :=
  cfgOps ++ [.write [7, 7, 7, 7, 7, 7, 7, 7, 7, 7, 7, 7, 7, 7, 7, 7]]

/-- Claim C1: on the single-writer single-reader trace `traceCorrupt` the
byte stream returned by the reads is not a prefix of the byte stream
accepted by the writes: the 13th byte read is 213 (from the third write)
while the 13th byte written is 13 (from the first write), even though the
reader has consumed everything currently readable (`offR = wp`).  The
third write overwrote the two not-yet-read bytes of the first write, so
reads do not return the written bytes in order across wraparound. -/
theorem read_stream_corrupted_on_trace :
    (runOps initSys traceCorrupt).readOut.getD 12 0 = 213 ∧
    (runOps initSys traceCorrupt).written.getD 12 0 = 13 ∧
    (runOps initSys traceCorrupt).readOut ≠
      (runOps initSys traceCorrupt).written.take
        (runOps initSys traceCorrupt).readOut.length ∧
    (runOps initSys traceCorrupt).offR = (runOps initSys traceCorrupt).topic.wp := by
  decide

/-- Claim C5: after `traceOverfill` — a legal sequence of configure, open,
write and read operations — the topic's `pending_len` is 18 while
`capacity_bytes` is 16, so the invariant `pending_len ≤ capacity_bytes`
does not hold in every reachable state. -/
theorem pending_len_exceeds_capacity_on_trace :
    (runOps initSys traceOverfill).topic.len = 18 ∧
    capacity (runOps initSys traceOverfill).topic = 16 ∧
    capacity (runOps initSys traceOverfill).topic <
      (runOps initSys traceOverfill).topic.len := by
  decide

/-- Claim C4: in the reachable state after `traceBeforeOverfill` we have
`write_pos = 0 < tail_pos = 12` with four unreclaimed bytes, yet the write
of the 14-byte `msgC` is accepted in full (the code clamps against the
writer handle's stale `*off = 0`, not against `tail_pos`): 14 exceeds
`tail_pos - write_pos = 12`, and the byte at offset 12 — inside the
unreclaimed region `[rp, rp + pending_len)` — changes from 13 to 213. -/
theorem write_clamp_ignores_tail_on_trace :
    (runOps initSys traceBeforeOverfill).topic.wp = 0 ∧
    (runOps initSys traceBeforeOverfill).topic.rp = 12 ∧
    (runOps initSys traceBeforeOverfill).topic.len = 4 ∧
    (runOps initSys traceBeforeOverfill).offW = 0 ∧
    (kpub_write (runOps initSys traceBeforeOverfill).topic
        (runOps initSys traceBeforeOverfill).offW msgC).2 = .ok msgC ∧
    writeLen (runOps initSys traceBeforeOverfill).topic
        (runOps initSys traceBeforeOverfill).offW msgC.length = 14 ∧
    (runOps initSys traceBeforeOverfill).topic.rp -
        (runOps initSys traceBeforeOverfill).topic.wp = 12 ∧
    (runOps initSys traceBeforeOverfill).topic.buf.getD 12 0 = 13 ∧
    (kpub_write (runOps initSys traceBeforeOverfill).topic
        (runOps initSys traceBeforeOverfill).offW msgC).1.buf.getD 12 0 = 213 := by
  decide

/-- Claim C2 counterexample: in the reachable state after `traceTailSkew`
the tail is at `rp = 10` and a successful read of 14 bytes makes the gate
hit zero; the code then sets `rp` to 24, not to `(10 + 14) % 16 = 8`: the
tail advance is not reduced modulo `capacity_bytes` (the source only
resets `rp` on exact equality with the capacity). -/
theorem tail_advance_not_modulo_on_trace :
    (runOps initSys traceTailSkew).topic.rp = 10 ∧
    (runOps initSys (traceTailSkew ++ [.read 14])).topic.rp = 24 ∧
    capacity (runOps initSys traceTailSkew).topic = 16 ∧
    readLen (runOps initSys traceTailSkew).topic
        (runOps initSys traceTailSkew).offR 14 = 14 ∧
    (runOps initSys (traceTailSkew ++ [.read 14])).topic.rp ≠
      ((runOps initSys traceTailSkew).topic.rp + 14) %
        capacity (runOps initSys traceTailSkew).topic := by
  decide

/-- A configured topic (slot size 1, slot count 16) on which no handle has
been opened yet. -/
def cfgTopic : Topic := (runOps initSys [Op.setSize 1, Op.setCount 16]).topic

/-- A configured topic with slot size 2 and slot count 8 and one handle of
each kind open. -/
def topicS2 : Topic :=
  { msg_size := 2, msg_count := 8, nreaders := 1, nwriters := 1,
    wp := 0, rp := 0, len := 0, rcount := 0, buf := List.replicate 16 0 }

theorem allocBuf_wp (t : Topic) : (allocBuf t).wp = t.wp := by
  unfold allocBuf
  split <;> rfl

/-- Claim C6: a write whose length is not a multiple of `msg_size`, or
exceeds `capacity_bytes`, is rejected with `EINVAL` before the topic is
touched: the returned state is exactly the input state. -/
theorem write_rejects_bad_length (t : Topic) (off : Nat) (data : List Nat)
    (h : data.length % t.msg_size ≠ 0 ∨ capacity t < data.length) :
    kpub_write t off data = (t, Except.error Err.EINVAL) := by
  unfold kpub_write
  by_cases hm : data.length % t.msg_size ≠ 0
  · rw [if_pos hm]
  · rw [if_neg hm]
    rcases h with h | h
    · exact absurd h hm
    · rw [if_pos h]

theorem write_rejects_bad_length_witness :
    (([5, 6, 7] : List Nat).length % topicS2.msg_size ≠ 0 ∨
      capacity topicS2 < ([5, 6, 7] : List Nat).length) ∧
    kpub_write topicS2 0 [5, 6, 7] = (topicS2, Except.error Err.EINVAL) :=
  ⟨Or.inl (by decide), write_rejects_bad_length topicS2 0 [5, 6, 7] (Or.inl (by decide))⟩

/-- Claim C9: every successful open — reader or writer — sets the shared
`rp` (tail_pos) to the current `wp` (write_pos) and zeroes the shared
`len` (pending_len), besides setting the new handle's cursor to `wp`;
`wp` itself is unchanged.  Any open therefore discards the broadcast-gate
accounting for data still pending for previously open readers. -/
theorem open_success_resets_tail_and_pending (t : Topic) (fR fW : Bool)
    (t2 : Topic) (off : Nat) (h : kpub_open t fR fW = (t2, Except.ok off)) :
    t2.rp = t.wp ∧ t2.len = 0 ∧ off = t.wp ∧ t2.wp = t.wp := by
  unfold kpub_open at h
  split at h
  · injection h with h1 h2
    exact Except.noConfusion h2
  · split at h
    · injection h with h1 h2
      injection h2 with h3
      subst h1
      exact ⟨allocBuf_wp t, rfl, by rw [← h3]; exact allocBuf_wp t, allocBuf_wp t⟩
    · split at h
      · injection h with h1 h2
        injection h2 with h3
        subst h1
        exact ⟨allocBuf_wp t, rfl, by rw [← h3]; exact allocBuf_wp t, allocBuf_wp t⟩
      · injection h with h1 h2
        exact Except.noConfusion h2

theorem open_success_resets_tail_and_pending_witness :
    kpub_open topicS2 true false = ((kpub_open topicS2 true false).1, Except.ok 0) ∧
    ((kpub_open topicS2 true false).1.rp = topicS2.wp ∧
     (kpub_open topicS2 true false).1.len = 0 ∧
     0 = topicS2.wp ∧
     (kpub_open topicS2 true false).1.wp = topicS2.wp) :=
  ⟨by decide,
   open_success_resets_tail_and_pending topicS2 true false
     (kpub_open topicS2 true false).1 0 (by decide)⟩

/-- Claim C3: in the reachable state after `traceFullWrap` the reader
handle's cursor equals `write_pos` (a read would block) and `pending_len`
equals `capacity_bytes` (a write would block), yet `kpub_poll` reports the
topic both readable and writable: the code tests `len > 0` for POLLIN and
`len == size` for POLLOUT, not `cursor != write_pos` and
`pending_len < capacity_bytes`. -/
theorem poll_diverges_on_full_buffer :
    kpub_poll (runOps initSys traceFullWrap).topic = (true, true) ∧
    (runOps initSys traceFullWrap).offR = (runOps initSys traceFullWrap).topic.wp ∧
    (runOps initSys traceFullWrap).topic.len =
      capacity (runOps initSys traceFullWrap).topic ∧
    ¬ ((runOps initSys traceFullWrap).offR ≠ (runOps initSys traceFullWrap).topic.wp) ∧
    ¬ ((runOps initSys traceFullWrap).topic.len <
        capacity (runOps initSys traceFullWrap).topic) := by
  decide

/-- Topic with a wrapped gate counter exercise state: four readable bytes
and `rcount = 0`. -/
def topicGate0 : Topic := { topicS2 with wp := 4, rcount := 0, buf := List.replicate 16 9 }

/-- Topic like `topicGate0` but with `rcount = 2`. -/
def topicGate2 : Topic := { topicS2 with wp := 4, rcount := 2, buf := List.replicate 16 9 }

/-- Topic like `topicGate0` but with `rcount = 1` and `len = 8`. -/
def topicGate1 : Topic :=
  { topicS2 with wp := 4, rcount := 1, len := 8, buf := List.replicate 16 9 }

/-- Claim C10: a successful read while `rcount` (pending_readers) is zero
still decrements it, wrapping the unsigned 32-bit counter to `2^32 - 1`
without reclaiming anything; a successful read from a non-zero count
takes it to `count - 1` and reclaims nothing unless the count was exactly
one; and every successful write resets `rcount` to the current number of
open readers.  Hence after a wrap the gate can reach zero again only
after `2^32 - 1` further reads or the next write. -/
theorem gate_wraps_at_zero_and_resets_on_write :
    (∀ (t : Topic) (off req : Nat) (t2 : Topic) (off2 : Nat) (d : List Nat),
       t.rcount = 0 →
       kpub_read t off req = (t2, Except.ok (off2, d)) →
       t2.rcount = U32 - 1 ∧ t2.rp = t.rp ∧ t2.len = t.len) ∧
    (∀ (t : Topic) (off req : Nat) (t2 : Topic) (off2 : Nat) (d : List Nat),
       0 < t.rcount → t.rcount < U32 →
       kpub_read t off req = (t2, Except.ok (off2, d)) →
       t2.rcount = t.rcount - 1 ∧ (1 < t.rcount → t2.rp = t.rp ∧ t2.len = t.len)) ∧
    (∀ (t : Topic) (off : Nat) (data : List Nat) (t2 : Topic) (acc : List Nat),
       kpub_write t off data = (t2, Except.ok acc) →
       t2.rcount = t.nreaders) := by
  refine ⟨?_, ?_, ?_⟩
  · intro t off req t2 off2 d h0 h
    unfold kpub_read at h
    split at h
    · injection h with h1 h2
      exact Except.noConfusion h2
    · split at h
      · rename_i hg
        rw [h0] at hg
        exact absurd hg (by decide)
      · injection h with h1 h2
        subst h1
        refine ⟨?_, rfl, rfl⟩
        show (t.rcount + U32 - 1) % U32 = U32 - 1
        rw [h0]
        decide
  · intro t off req t2 off2 d hpos hlt h
    have hr : (t.rcount + U32 - 1) % U32 = t.rcount - 1 := by
      have h1 : t.rcount + U32 - 1 = (t.rcount - 1) + U32 := by omega
      rw [h1, Nat.add_mod_right]
      exact Nat.mod_eq_of_lt (by omega)
    unfold kpub_read at h
    split at h
    · injection h with h1 h2
      exact Except.noConfusion h2
    · split at h
      · rename_i hg
        injection h with h1 h2
        subst h1
        refine ⟨hr, fun h1lt => ?_⟩
        exfalso
        rw [hr] at hg
        omega
      · injection h with h1 h2
        subst h1
        exact ⟨hr, fun _ => ⟨rfl, rfl⟩⟩
  · intro t off data t2 acc h
    unfold kpub_write at h
    split at h
    · injection h with h1 h2
      exact Except.noConfusion h2
    · split at h
      · injection h with h1 h2
        exact Except.noConfusion h2
      · split at h
        · injection h with h1 h2
          exact Except.noConfusion h2
        · injection h with h1 h2
          subst h1
          rfl

theorem gate_wraps_at_zero_and_resets_on_write_witness :
    topicGate0.rcount = 0 ∧
    (kpub_read topicGate0 0 4).1.rcount = U32 - 1 ∧
    (kpub_read topicGate0 0 4).1.rp = topicGate0.rp ∧
    (kpub_read topicGate0 0 4).1.len = topicGate0.len ∧
    (kpub_read topicGate2 0 4).1.rcount = topicGate2.rcount - 1 ∧
    (kpub_read topicGate2 0 4).1.rp = topicGate2.rp ∧
    (kpub_write topicGate2 0 [3, 3]).1.rcount = topicGate2.nreaders :=
  have h1 := gate_wraps_at_zero_and_resets_on_write.1 topicGate0 0 4
    (kpub_read topicGate0 0 4).1 4 [9, 9, 9, 9] (by decide) (by decide)
  have h2 := gate_wraps_at_zero_and_resets_on_write.2.1 topicGate2 0 4
    (kpub_read topicGate2 0 4).1 4 [9, 9, 9, 9] (by decide) (by decide) (by decide)
  have h3 := gate_wraps_at_zero_and_resets_on_write.2.2 topicGate2 0 [3, 3]
    (kpub_write topicGate2 0 [3, 3]).1 [3, 3] (by decide)
  ⟨by decide, h1.1, h1.2.1, h1.2.2, h2.1, (h2.2 (by decide)).1, h3⟩

/-- Claim C2 (amended): every successful read decrements `rcount`
(pending_readers) by one modulo 2^32; when the decremented count is zero
the read advances `rp` (tail_pos) by the byte count read — wrapping to
zero only when the sum lands exactly on `capacity_bytes`, not by a true
modulo reduction — and decreases `len` (pending_len) by that count
(modulo 2^32); when it is non-zero, `rp` and `len` are untouched.  A
successful write changes `len` only by adding the accepted count, and
failed reads and writes leave the topic unchanged. -/
theorem read_gate_step_characterisation :
    (∀ (t : Topic) (off req : Nat) (t2 : Topic) (off2 : Nat) (d : List Nat),
       kpub_read t off req = (t2, Except.ok (off2, d)) →
       t2.rcount = (t.rcount + U32 - 1) % U32 ∧
       (t2.rcount = 0 →
          t2.rp = (if (t.rp + readLen t off req) % U32 = capacity t then 0
                   else (t.rp + readLen t off req) % U32) ∧
          t2.len = (t.len + U32 - readLen t off req) % U32) ∧
       (t2.rcount ≠ 0 → t2.rp = t.rp ∧ t2.len = t.len)) ∧
    (∀ (t : Topic) (off : Nat) (data : List Nat) (t2 : Topic) (acc : List Nat),
       kpub_write t off data = (t2, Except.ok acc) →
       t2.len = (t.len + writeLen t off data.length) % U32) ∧
    (∀ (t : Topic) (off : Nat) (data : List Nat) (t2 : Topic) (e : Err),
       kpub_write t off data = (t2, Except.error e) → t2 = t) ∧
    (∀ (t : Topic) (off req : Nat) (t2 : Topic) (e : Err),
       kpub_read t off req = (t2, Except.error e) → t2 = t) := by
  refine ⟨?_, ?_, ?_, ?_⟩
  · intro t off req t2 off2 d h
    unfold kpub_read at h
    split at h
    · injection h with h1 h2
      exact Except.noConfusion h2
    · split at h
      · rename_i hg
        injection h with h1 h2
        subst h1
        exact ⟨rfl, fun _ => ⟨rfl, rfl⟩, fun hne => absurd hg hne⟩
      · rename_i hg
        injection h with h1 h2
        subst h1
        exact ⟨rfl, fun h0 => absurd h0 hg, fun _ => ⟨rfl, rfl⟩⟩
  · intro t off data t2 acc h
    unfold kpub_write at h
    split at h
    · injection h with h1 h2
      exact Except.noConfusion h2
    · split at h
      · injection h with h1 h2
        exact Except.noConfusion h2
      · split at h
        · injection h with h1 h2
          exact Except.noConfusion h2
        · injection h with h1 h2
          subst h1
          rfl
  · intro t off data t2 e h
    unfold kpub_write at h
    split at h
    · injection h with h1 h2
      exact h1.symm
    · split at h
      · injection h with h1 h2
        exact h1.symm
      · split at h
        · injection h with h1 h2
          exact h1.symm
        · injection h with h1 h2
          exact Except.noConfusion h2
  · intro t off req t2 e h
    unfold kpub_read at h
    by_cases h1 : off = t.wp
    · rw [if_pos h1] at h
      have ha : _ = t2 := congrArg Prod.fst h
      rw [← ha]
    · rw [if_neg h1] at h
      by_cases hg : (t.rcount + U32 - 1) % U32 = 0
      · rw [if_pos hg] at h
        exact absurd (congrArg Prod.snd h) (fun hc => Except.noConfusion hc)
      · rw [if_neg hg] at h
        exact absurd (congrArg Prod.snd h) (fun hc => Except.noConfusion hc)

theorem read_gate_step_characterisation_witness :
    (kpub_read topicGate1 0 4).1.rcount = (topicGate1.rcount + U32 - 1) % U32 ∧
    (kpub_read topicGate1 0 4).1.rp =
      (if (topicGate1.rp + readLen topicGate1 0 4) % U32 = capacity topicGate1 then 0
       else (topicGate1.rp + readLen topicGate1 0 4) % U32) ∧
    (kpub_read topicGate1 0 4).1.len =
      (topicGate1.len + U32 - readLen topicGate1 0 4) % U32 :=
  have h := read_gate_step_characterisation.1 topicGate1 0 4
    (kpub_read topicGate1 0 4).1 4 [9, 9, 9, 9] (by decide)
  have h2 := h.2.1 (by decide)
  ⟨h.1, h2.1, h2.2⟩

/-- One `configure(slot_size, slot_count)` call of the spec's interface,
realised against the source as a sysfs store to `msg_size` followed by a
sysfs store to `msg_count`, each of byte length `l`.  Returns the final
topic and the two store results. -/
def configure (t : Topic) (v c l : Nat) : Topic × Except Err Nat × Except Err Nat :=
  ((msg_count_store (msg_size_store t v l).1 c l).1,
   (msg_size_store t v l).2,
   (msg_count_store (msg_size_store t v l).1 c l).2)

/-- Claim C7 counterexample: in the reachable state with one reader and
one writer handle open, `msg_size_store` and `msg_count_store` fail with
`EINVAL`, which is not the `EBUSY` error the claim names; the prior
configuration is left unchanged. -/
theorem config_busy_returns_einval_not_ebusy :
    (runOps initSys cfgOps).topic.nreaders = 1 ∧
    msg_size_store (runOps initSys cfgOps).topic 5 4 =
      ((runOps initSys cfgOps).topic, Except.error Err.EINVAL) ∧
    msg_count_store (runOps initSys cfgOps).topic 5 4 =
      ((runOps initSys cfgOps).topic, Except.error Err.EINVAL) ∧
    (Except.error Err.EINVAL : Except Err Nat) ≠ Except.error Err.EBUSY := by
  decide

/-- Claim C7 (amended): while at least one handle is open both
configuration stores fail with `EINVAL` (the source never returns a
busy-class error) and leave the topic — in particular the prior
`msg_size` and `msg_count` — unchanged; with no handles open, calling
`configure` twice with identical in-range values succeeds both times and
stores the same values. -/
theorem config_busy_einval_and_idempotent :
    (∀ (t : Topic) (v l : Nat), t.nreaders ≠ 0 ∨ t.nwriters ≠ 0 →
       msg_size_store t v l = (t, Except.error Err.EINVAL) ∧
       msg_count_store t v l = (t, Except.error Err.EINVAL)) ∧
    (∀ (t : Topic) (v c l : Nat), t.nreaders = 0 → t.nwriters = 0 → l ≤ 4 →
       v % U32 ≤ MAX_MSG_SIZE → c % U32 ≤ MAX_MSG_COUNT →
       (configure t v c l).2.1 = Except.ok l ∧
       (configure t v c l).2.2 = Except.ok l ∧
       (configure t v c l).1.msg_size = v % U32 ∧
       (configure t v c l).1.msg_count = c % U32 ∧
       (configure (configure t v c l).1 v c l).2.1 = Except.ok l ∧
       (configure (configure t v c l).1 v c l).2.2 = Except.ok l ∧
       (configure (configure t v c l).1 v c l).1 = (configure t v c l).1) := by
  constructor
  · intro t v l hb
    constructor
    · unfold msg_size_store
      by_cases h4 : 4 < l
      · rw [if_pos h4]
      · rw [if_neg h4, if_pos hb]
    · unfold msg_count_store
      by_cases h4 : 4 < l
      · rw [if_pos h4]
      · rw [if_neg h4, if_pos hb]
  · intro t v c l hr hw hl hv hc
    have hnl : ¬ 4 < l := Nat.not_lt.mpr hl
    have hnv : ¬ MAX_MSG_SIZE < v % U32 := Nat.not_lt.mpr hv
    have hnc : ¬ MAX_MSG_COUNT < c % U32 := Nat.not_lt.mpr hc
    simp [configure, msg_size_store, msg_count_store, hnl, hnv, hnc, hr, hw]

theorem config_busy_einval_and_idempotent_witness :
    (topicS2.nreaders ≠ 0 ∨ topicS2.nwriters ≠ 0) ∧
    msg_size_store topicS2 5 4 = (topicS2, Except.error Err.EINVAL) ∧
    msg_count_store topicS2 5 4 = (topicS2, Except.error Err.EINVAL) ∧
    (configure cfgTopic 2 8 4).2.1 = Except.ok 4 ∧
    (configure cfgTopic 2 8 4).2.2 = Except.ok 4 ∧
    (configure (configure cfgTopic 2 8 4).1 2 8 4).2.1 = Except.ok 4 ∧
    (configure (configure cfgTopic 2 8 4).1 2 8 4).2.2 = Except.ok 4 :=
  have hbusy := config_busy_einval_and_idempotent.1 topicS2 5 4 (Or.inl (by decide))
  have hidem := config_busy_einval_and_idempotent.2 cfgTopic 2 8 4
    (by decide) (by decide) (by decide) (by decide) (by decide)
  ⟨Or.inl (by decide), hbusy.1, hbusy.2, hidem.1, hidem.2.1,
   hidem.2.2.2.2.1, hidem.2.2.2.2.2.1⟩

/-- Claim C8 counterexample: on a configured topic with no handles open,
storing the value zero into `msg_size` (and into `msg_count`) succeeds —
the call returns the echoed length, not `EINVAL` — and the stored value
becomes zero, although the claim requires an `InvalidArgument` failure
whenever the value is zero after the attempted update. -/
theorem store_zero_succeeds :
    cfgTopic.nreaders = 0 ∧ cfgTopic.nwriters = 0 ∧
    (msg_size_store cfgTopic 0 4).2 = Except.ok 4 ∧
    (msg_size_store cfgTopic 0 4).1.msg_size = 0 ∧
    (msg_count_store cfgTopic 0 4).2 = Except.ok 4 ∧
    (msg_count_store cfgTopic 0 4).1.msg_count = 0 := by
  decide

/-- Claim C8 (amended): with no handles open (and a sysfs write of at most
four bytes) a configuration store fails with `EINVAL` exactly when the
32-bit value exceeds its fixed maximum (`MAX_MSG_SIZE`, one page, for the
slot size; `MAX_MSG_COUNT` for the slot count), and on that failure the
stored value is reset to zero; a value of zero itself is accepted and
stored, leaving the topic unconfigured rather than failing. -/
theorem config_bounds_characterisation :
    ∀ (t : Topic) (v l : Nat), t.nreaders = 0 → t.nwriters = 0 → l ≤ 4 →
      (MAX_MSG_SIZE < v % U32 →
         msg_size_store t v l = ({ t with msg_size := 0 }, Except.error Err.EINVAL)) ∧
      (v % U32 ≤ MAX_MSG_SIZE →
         msg_size_store t v l = ({ t with msg_size := v % U32 }, Except.ok l)) ∧
      (MAX_MSG_COUNT < v % U32 →
         msg_count_store t v l = ({ t with msg_count := 0 }, Except.error Err.EINVAL)) ∧
      (v % U32 ≤ MAX_MSG_COUNT →
         msg_count_store t v l = ({ t with msg_count := v % U32 }, Except.ok l)) := by
  intro t v l hr hw hl
  have hnl : ¬ 4 < l := Nat.not_lt.mpr hl
  have hb : ¬ (t.nreaders ≠ 0 ∨ t.nwriters ≠ 0) := by simp [hr, hw]
  refine ⟨fun hbig => ?_, fun hsmall => ?_, fun hbig => ?_, fun hsmall => ?_⟩
  · unfold msg_size_store
    rw [if_neg hnl, if_neg hb, if_pos hbig]
  · unfold msg_size_store
    rw [if_neg hnl, if_neg hb, if_neg (Nat.not_lt.mpr hsmall)]
  · unfold msg_count_store
    rw [if_neg hnl, if_neg hb, if_pos hbig]
  · unfold msg_count_store
    rw [if_neg hnl, if_neg hb, if_neg (Nat.not_lt.mpr hsmall)]

theorem config_bounds_characterisation_witness :
    cfgTopic.nreaders = 0 ∧ cfgTopic.nwriters = 0 ∧
    (MAX_MSG_SIZE < 5000 % U32 ∧
     msg_size_store cfgTopic 5000 4 = ({ cfgTopic with msg_size := 0 }, Except.error Err.EINVAL)) ∧
    (64 % U32 ≤ MAX_MSG_SIZE ∧
     msg_size_store cfgTopic 64 4 = ({ cfgTopic with msg_size := 64 % U32 }, Except.ok 4)) :=
  have hbig := (config_bounds_characterisation cfgTopic 5000 4
    (by decide) (by decide) (by decide)).1 (by decide)
  have hsmall := (config_bounds_characterisation cfgTopic 64 4
    (by decide) (by decide) (by decide)).2.1 (by decide)
  ⟨by decide, by decide, ⟨by decide, hbig⟩, ⟨by decide, hsmall⟩⟩

end Kpub
